import Mathlib

/-!
A verification development for the Changerawr React SDK.

The definitions below are shallow embeddings of the TypeScript source:
* the error taxonomy and `parseApiError` (src/client/errors.ts),
* the `ChangerawrClient` constructor's axios configuration and
  `getWidgetScript` (src/client/api.ts),
* the `useChangelog` cursor-pagination hook (fetchEntries / fetchNextPage /
  the filter-reset effect),
* the `useChangelogEntry` single-item hook and the `useProjects` offset hook,
* the mutation hooks (`useCreateEntry`, `useCreateProject`, `useDeleteEntry`),
* the `useTagFilter` tag-selection hook.

JavaScript truthiness on optional strings/numbers/booleans is modelled
explicitly (`undefined`, the empty string, `0` and `false` are falsy).
React state setters issued in one synchronous run of a callback are applied
as a single batched transition, which is how consumers observe hook state;
an `await` boundary separates batches.  The opaque `cause` field carried by
every error (a reference to the original failure) plays no role in any
claim and is not modelled.
-/

namespace Changerawr

/-- JavaScript truthiness of an optional string: `undefined` and `''` are
falsy. -/
def optTruthy : Option String → Bool
  | none => false
  | some s => !(s == "")

/-! ## Error taxonomy (src/client/errors.ts) -/

/-- The `name` field of the error class hierarchy: `ChangerawrError` is the
base class, the others are its subclasses (`ChangerawrAuthError` extends
`ChangerawrRequestError`). -/
inductive ErrorName where
  | changerawrError
  | changerawrRequestError
  | changerawrServerError
  | changerawrNetworkError
  | changerawrTimeoutError
  | changerawrAuthError
deriving DecidableEq, Repr

/-- A constructed `ChangerawrError` (or subclass) instance: the classified
form every transport failure is normalised into.  The opaque `cause`
reference is not modelled. -/
structure ClassifiedError where
  name : ErrorName
  message : String
  status : Option Nat
  details : Option String
deriving DecidableEq, Repr

/-- The `ApiErrorResponse` body shape the server may attach to an HTTP
failure; both fields may be missing on the wire (the value is cast from
`unknown`). -/
structure ApiErrorBody where
  error : Option String
  details : Option String
deriving DecidableEq, Repr

/-- The `response` field of an axios failure: an HTTP status plus an
optional structured body. -/
structure HttpResponse where
  status : Nat
  data : Option ApiErrorBody
deriving DecidableEq, Repr

/-- The `unknown` value `parseApiError` receives.  `classified e` is an
instance of `ChangerawrError` (such instances carry no `code` and no
`response` field and are `Error` instances whose `message` is `e.message`).
`jsObject code response errMessage` is any other object: `code` is its
optional `code` field, `response` its optional `response` field, and
`errMessage = some m` exactly when the object is an `Error` instance with
message `m`.  `nonObject` is any primitive (string, number, null, ...). -/
inductive RawError where
  | classified (e : ClassifiedError)
  | jsObject (code : Option String) (response : Option HttpResponse)
      (errMessage : Option String)
  | nonObject
deriving DecidableEq, Repr

/-- `data?.error || default`: the server-supplied error string when present
and non-empty (JS `||` treats the empty string as falsy), else the
default. -/
def msgOr (body : Option ApiErrorBody) (default : String) : String :=
  match body with
  | some b =>
      match b.error with
      | some e => if e = "" then default else e
      | none => default
  | none => default

/-- `data?.details` of an optional body. -/
def bodyDetails (body : Option ApiErrorBody) : Option String :=
  body.bind (·.details)

/-- `parseApiError` (src/client/errors.ts lines 78–125), traced field
access by field access.  A `ChangerawrError` instance entering the function
is an object with no `code` and no `response` field, so it falls through to
the generic fallback, which preserves its message (it is an `Error`
instance) but rebuilds a base `ChangerawrError` with no `status` and no
`details`. -/
def parseApiError : RawError → ClassifiedError
  | .classified e => ⟨.changerawrError, e.message, none, none⟩
  | .jsObject code response errMessage =>
      if code = some "ECONNABORTED" then
        ⟨.changerawrTimeoutError, "Request timed out", none, none⟩
      else if code = some "ECONNREFUSED" ∨ code = some "ENOTFOUND" then
        ⟨.changerawrNetworkError, "Failed to connect to API", none, none⟩
      else
        match response with
        | some resp =>
            if resp.status = 401 ∨ resp.status = 403 then
              ⟨.changerawrAuthError, msgOr resp.data "Authentication failed",
                some resp.status, bodyDetails resp.data⟩
            else if 400 ≤ resp.status ∧ resp.status < 500 then
              ⟨.changerawrRequestError, msgOr resp.data "Invalid request",
                some resp.status, bodyDetails resp.data⟩
            else if 500 ≤ resp.status then
              ⟨.changerawrServerError, msgOr resp.data "Server error",
                some resp.status, bodyDetails resp.data⟩
            else
              ⟨.changerawrError, errMessage.getD "Unknown error", none, none⟩
        | none =>
            ⟨.changerawrError, errMessage.getD "Unknown error", none, none⟩
  | .nonObject => ⟨.changerawrError, "Unknown error", none, none⟩

/-- The classification performed at every hook's catch site:
`err instanceof ChangerawrError ? err : parseApiError(err)`. -/
def hookClassify : RawError → ClassifiedError
  | .classified e => e
  | e => parseApiError e

example :
    parseApiError (.jsObject none
      (some ⟨403, some ⟨some "forbidden", none⟩⟩) none) =
      ⟨.changerawrAuthError, "forbidden", some 403, none⟩ := by decide

example :
    parseApiError (.classified ⟨.changerawrAuthError, "forbidden", some 403, none⟩) =
      ⟨.changerawrError, "forbidden", none, none⟩ := by decide

/-! ## The client constructor (src/client/api.ts) -/

/-- The `auth` sub-configuration; its `type` field is the literal
`'bearer'`, so only the token is data. -/
structure AuthConfig where
  token : String
deriving DecidableEq, Repr

/-- `ChangerawrClientConfig` (src/client/types.ts). -/
structure ChangerawrClientConfig where
  apiUrl : String
  projectId : Option String := none
  apiKey : Option String := none
  auth : Option AuthConfig := none
  timeout : Option Nat := none
deriving DecidableEq, Repr

/-- Overwrite one key of a header map, as a later entry of a JS object
literal overwrites an earlier one with the same key. -/
def hupdate (m : String → Option String) (k v : String) : String → Option String :=
  fun q => if q = k then some v else m q

/-- The default-header object built by the `ChangerawrClient` constructor:
`Content-Type` and `Accept`, then `...(config.apiKey && {Authorization})`,
then `...(config.auth?.type === 'bearer' && {Authorization})` — the spreads
are applied in source order, so a later `Authorization` entry overwrites an
earlier one.  `config.apiKey &&` is a JS truthiness test (the empty string
contributes nothing); `config.auth?.type === 'bearer'` holds exactly when
`auth` is present. -/
def axiosHeaders (config : ChangerawrClientConfig) : String → Option String :=
  let base : String → Option String := fun q =>
    if q = "Content-Type" then some "application/json"
    else if q = "Accept" then some "application/json"
    else none
  let withKey :=
    match config.apiKey with
    | some key => if key = "" then base else hupdate base "Authorization" ("Bearer " ++ key)
    | none => base
  match config.auth with
  | some a => hupdate withKey "Authorization" ("Bearer " ++ a.token)
  | none => withKey

/-- `timeout: config.timeout || 30000` — JS `||`, so an unspecified (or
zero) timeout falls back to 30000 ms. -/
def axiosTimeout (config : ChangerawrClientConfig) : Nat :=
  match config.timeout with
  | some t => if t = 0 then 30000 else t
  | none => 30000

example :
    axiosHeaders ⟨"https://api.example.com", none, some "k", some ⟨"t"⟩, none⟩
      "Authorization" = some "Bearer t" := by decide

example :
    axiosHeaders ⟨"https://api.example.com", none, some "k", none, none⟩
      "Authorization" = some "Bearer k" := by decide

/-! ## Widget-script generation (src/client/api.ts, `getWidgetScript`) -/

/-- `WidgetScriptParams` (src/client/types.ts).  The `theme` and `position`
literal unions are modelled as strings. -/
structure WidgetScriptParams where
  theme : Option String := none
  position : Option String := none
  maxHeight : Option String := none
  isPopup : Option Bool := none
  trigger : Option String := none
  maxEntries : Option Nat := none
deriving DecidableEq, Repr

/-- `if (params?.x) queryParams.append(k, params.x)` for a string-valued
option: appended exactly when present and non-empty (JS truthiness). -/
def strParam (k : String) (v : Option String) : List (String × String) :=
  match v with
  | some s => if s = "" then [] else [(k, s)]
  | none => []

/-- `if (params?.isPopup) queryParams.append(k, params.isPopup.toString())`:
appended exactly when the flag is present and `true`. -/
def boolParam (k : String) (v : Option Bool) : List (String × String) :=
  match v with
  | some b => if b then [(k, "true")] else []
  | none => []

/-- `if (params?.maxEntries) queryParams.append(k, ...toString())`:
appended exactly when present and non-zero (JS truthiness of a number). -/
def natParam (k : String) (v : Option Nat) : List (String × String) :=
  match v with
  | some n => if n = 0 then [] else [(k, toString n)]
  | none => []

/-- The `URLSearchParams` accumulated by `getWidgetScript`: each `append`
is guarded by a JS truthiness test of the corresponding option, in source
order. -/
def widgetQuery (params : WidgetScriptParams) : List (String × String) :=
  strParam "theme" params.theme ++
  strParam "position" params.position ++
  strParam "maxHeight" params.maxHeight ++
  boolParam "popup" params.isPopup ++
  strParam "trigger" params.trigger ++
  natParam "maxEntries" params.maxEntries

/-- `URLSearchParams.toString` on the accumulated pairs; the characters
appearing in widget parameter values need no percent-escaping, so the
external encoder is the identity on them. -/
def renderQuery (q : List (String × String)) : String :=
  String.intercalate "&" (q.map (fun kv => kv.1 ++ "=" ++ kv.2))

/-- `getWidgetScript` is pure string assembly: no request is issued.  The
query string is prefixed with `?` only when at least one parameter was
appended. -/
def getWidgetScript (config : ChangerawrClientConfig) (projectId : String)
    (params : WidgetScriptParams) : String :=
  let q := renderQuery (widgetQuery params)
  let queryString := if q = "" then "" else "?" ++ q
  "<script src=\"" ++ config.apiUrl ++ "/integrations/widget/" ++ projectId ++
    queryString ++ "\" async></script>"

example :
    widgetQuery ⟨some "dark", none, none, some true, none, some 5⟩ =
      [("theme", "dark"), ("popup", "true"), ("maxEntries", "5")] := by decide

example :
    widgetQuery ⟨some "", none, some "", some false, some "", some 0⟩ = [] := by decide

/-! ## Cursor pagination: the `useChangelog` hook
(src/hooks/changelog/useChangelog.ts)

The hook's options and filter state that `fetchEntries` reads at dispatch
time; entry values are opaque, so the item type is a parameter. -/

structure ChangelogConfig where
  projectId : Option String := none
  search : Option String := none
  tags : Option (List String) := none
  sort : String := "newest"
  limit : Nat := 10
deriving DecidableEq, Repr

/-- One cursor page as returned by the server:
`{items, nextCursor?}`. -/
structure CursorPage (α : Type) where
  items : List α
  nextCursor : Option String
deriving DecidableEq, Repr

/-- The `useChangelog` hook state, one field per `useState`. -/
structure ChangelogState (α : Type) where
  entries : List α
  nextCursor : Option String
  isLoading : Bool
  isLoadingMore : Bool
  error : Option ClassifiedError
deriving DecidableEq, Repr

/-- The outcome the awaited `client.getChangelog` call settles with. -/
inductive FetchOutcome (α : Type) where
  | ok (page : CursorPage α)
  | fail (e : RawError)
deriving DecidableEq, Repr

/-- The query `client.getChangelog` sends: the hook's parameters, with the
tag array comma-joined by the client (`params?.tags?.join(',')`). -/
structure ChangelogQuery where
  cursor : Option String
  limit : Nat
  search : Option String
  tags : Option String
  sort : String
deriving DecidableEq, Repr

/-- The request `fetchEntries` dispatches when the project id passes the
`if (!projectId)` truthiness guard: an initial fetch sends no cursor, a
next-page fetch sends the current `nextCursor`. -/
def fetchRequest {α : Type} (cfg : ChangelogConfig) (s : ChangelogState α)
    (isInitialFetch : Bool) : Option ChangelogQuery :=
  if optTruthy cfg.projectId then
    some ⟨if isInitialFetch then none else s.nextCursor, cfg.limit, cfg.search,
      cfg.tags.map (String.intercalate ","), cfg.sort⟩
  else
    none

/-- The state `fetchEntries` exposes after its synchronous prologue (one
React batch): a missing project id stores a local error and returns without
fetching; otherwise the appropriate loading flag is raised. -/
def fetchStart {α : Type} (cfg : ChangelogConfig) (isInitialFetch : Bool)
    (s : ChangelogState α) : ChangelogState α :=
  if optTruthy cfg.projectId then
    if isInitialFetch then { s with isLoading := true }
    else { s with isLoadingMore := true }
  else
    { s with error := some ⟨.changerawrError, "Project ID is required", none, none⟩ }

/-- The state after the awaited call settles (the try/catch/finally batch):
success replaces the entries on an initial fetch and appends on a next-page
fetch, stores the new cursor and clears the error; failure classifies and
stores the error and leaves entries and cursor untouched; `finally` clears
both loading flags. -/
def fetchSettle {α : Type} (isInitialFetch : Bool) (outcome : FetchOutcome α)
    (s : ChangelogState α) : ChangelogState α :=
  match outcome with
  | .ok page =>
      { s with
        entries := if isInitialFetch then page.items else s.entries ++ page.items
        nextCursor := page.nextCursor
        error := none
        isLoading := false
        isLoadingMore := false }
  | .fail e =>
      { s with
        error := some (hookClassify e)
        isLoading := false
        isLoadingMore := false }

/-- A whole `fetchEntries(isInitialFetch)` call: the resulting hook state
plus the request it dispatched, if any. -/
def fetchEntriesRun {α : Type} (cfg : ChangelogConfig) (isInitialFetch : Bool)
    (outcome : FetchOutcome α) (s : ChangelogState α) :
    ChangelogState α × Option ChangelogQuery :=
  match fetchRequest cfg s isInitialFetch with
  | some q => (fetchSettle isInitialFetch outcome (fetchStart cfg isInitialFetch s), some q)
  | none => (fetchStart cfg isInitialFetch s, none)

/-- `fetchNextPage`: `if (nextCursor) await fetchEntries(false)` — the only
guard is the truthiness of the cursor. -/
def fetchNextPageRun {α : Type} (cfg : ChangelogConfig) (outcome : FetchOutcome α)
    (s : ChangelogState α) : ChangelogState α × Option ChangelogQuery :=
  if optTruthy s.nextCursor then fetchEntriesRun cfg false outcome s
  else (s, none)

/-- The dependency-change effect on `[projectId, search, tags, sort]`: when
the project id is truthy it clears entries, cursor and error and starts an
initial fetch; the returned query is the dispatched request, if any. -/
def onDepsChange {α : Type} (cfg : ChangelogConfig) (s : ChangelogState α) :
    ChangelogState α × Option ChangelogQuery :=
  if optTruthy cfg.projectId then
    let cleared : ChangelogState α :=
      { s with entries := [], nextCursor := none, error := none }
    (fetchStart cfg true cleared, fetchRequest cfg cleared true)
  else
    (s, none)

/-- A run of successful `fetchNextPage` calls, one server page per call. -/
def runNextPages {α : Type} (cfg : ChangelogConfig) (s : ChangelogState α)
    (pages : List (CursorPage α)) : ChangelogState α :=
  pages.foldl (fun t p => (fetchNextPageRun cfg (.ok p) t).1) s

/-- The cursor held after consuming `pages`: the last page's cursor, or the
starting cursor when no page was consumed. -/
def lastCursorOf {α : Type} (pages : List (CursorPage α))
    (start : Option String) : Option String :=
  match pages.getLast? with
  | some p => p.nextCursor
  | none => start

example :
    (fetchNextPageRun (α := String) ⟨some "p1", none, none, "newest", 10⟩
      (.ok ⟨["e3"], none⟩)
      ⟨["e1", "e2"], some "c1", false, false, none⟩).1.entries =
      ["e1", "e2", "e3"] := by decide

example :
    (fetchNextPageRun (α := String) ⟨some "p1", none, none, "newest", 10⟩
      (.ok ⟨["e3"], none⟩)
      ⟨["e1", "e2"], none, false, false, none⟩).2 = none := by decide

/-! ## Single-item fetch: the `useChangelogEntry` hook
(src/hooks/changelog/useChangelogEntry.ts) -/

/-- The outcome an awaited single-payload client call settles with. -/
inductive CallOutcome (α : Type) where
  | ok (value : α)
  | fail (e : RawError)
deriving DecidableEq, Repr

/-- The `useChangelogEntry` hook state. -/
structure EntryState (α : Type) where
  entry : Option α
  isLoading : Bool
  error : Option ClassifiedError
deriving DecidableEq, Repr

/-- The settle batch of `fetchEntry`: success stores the entry and clears
the error; failure classifies and stores the error and leaves the prior
entry untouched; `finally` clears the loading flag. -/
def fetchEntrySettle {α : Type} (outcome : CallOutcome α) (s : EntryState α) :
    EntryState α :=
  match outcome with
  | .ok v => { s with entry := some v, error := none, isLoading := false }
  | .fail e => { s with error := some (hookClassify e), isLoading := false }

/-! ## Offset-list fetch: the `useProjects` hook
(src/hooks/projects/useProjects.ts) -/

/-- The `useProjects` hook state. -/
structure ProjectsState (α : Type) where
  projects : List α
  total : Nat
  totalPages : Nat
  page : Nat
  isLoading : Bool
  error : Option ClassifiedError
deriving DecidableEq, Repr

/-- One offset page: `{items, pagination: {total, totalPages}}`. -/
structure OffsetPage (α : Type) where
  items : List α
  total : Nat
  totalPages : Nat
deriving DecidableEq, Repr

/-- The settle batch of `fetchProjects`: success replaces the list and the
pagination counters and clears the error; failure classifies and stores the
error and leaves the prior list untouched. -/
def fetchProjectsSettle {α : Type} (outcome : CallOutcome (OffsetPage α))
    (s : ProjectsState α) : ProjectsState α :=
  match outcome with
  | .ok page =>
      { s with
        projects := page.items
        total := page.total
        totalPages := page.totalPages
        error := none
        isLoading := false }
  | .fail e =>
      { s with error := some (hookClassify e), isLoading := false }

/-! ## Single-project fetch: the `useProject` hook
(src/hooks/projects/useProject.ts) -/

/-- The `useProject` hook state. -/
structure ProjectState (α : Type) where
  project : Option α
  isLoading : Bool
  error : Option ClassifiedError
deriving DecidableEq, Repr

/-- The settle batch of `fetchProject`: success stores the project and
clears the error; failure classifies and stores the error **and clears the
prior project to null** (`setError(...); setProject(null)` in the catch) —
unlike the other read hooks, this one does not keep stale data; `finally`
clears the loading flag. -/
def fetchProjectSettle {α : Type} (outcome : CallOutcome α) (s : ProjectState α) :
    ProjectState α :=
  match outcome with
  | .ok v => { s with project := some v, error := none, isLoading := false }
  | .fail e =>
      { s with error := some (hookClassify e), project := none, isLoading := false }

/-! ## Mutation hooks (`useCreateEntry`, `useCreateProject`,
`useDeleteEntry`, `useUpdateEntry`)

All four share one state shape and one transition discipline; the delete
hook simply has no `data` field, which the common model carries unused. -/

/-- A mutation hook's state. -/
structure MutState (α : Type) where
  data : Option α
  isLoading : Bool
  isSuccess : Bool
  error : Option ClassifiedError
deriving DecidableEq, Repr

/-- The initial mutation state. -/
def mutInit {α : Type} : MutState α := ⟨none, false, false, none⟩

/-- The synchronous prologue of every mutation function, one batch:
`setIsLoading(true); setError(null); setIsSuccess(false)`. -/
def mutStart {α : Type} (s : MutState α) : MutState α :=
  { s with isLoading := true, error := none, isSuccess := false }

/-- The settle batch after a successful awaited call: store the payload,
raise `isSuccess`, and `finally` lowers `isLoading`. -/
def mutSettleOk {α : Type} (v : α) (s : MutState α) : MutState α :=
  { s with data := some v, isSuccess := true, isLoading := false }

/-- The settle batch after a failed awaited call: classify and store the
error, `finally` lowers `isLoading`. -/
def mutSettleFail {α : Type} (e : RawError) (s : MutState α) : MutState α :=
  { s with error := some (hookClassify e), isLoading := false }

/-- The `reset` callback: every field back to its initial value. -/
def mutReset {α : Type} : MutState α := ⟨none, false, false, none⟩

/-- `validateProjectId` of `useCreateEntry`: `if (!projectId) throw` — a JS
truthiness test, so the empty string also fails. -/
def validateProjectId (projectId : Option String) : Except ClassifiedError String :=
  match projectId with
  | some p =>
      if p = "" then
        .error ⟨.changerawrError,
          "Project ID is required for creating changelog entries", none, none⟩
      else .ok p
  | none =>
      .error ⟨.changerawrError,
        "Project ID is required for creating changelog entries", none, none⟩

/-- `validateIds` of `useDeleteEntry`: the project id is tested first, then
the entry id. -/
def validateIds (projectId entryId : Option String) :
    Except ClassifiedError (String × String) :=
  if !optTruthy projectId then
    .error ⟨.changerawrError,
      "Project ID is required for deleting changelog entries", none, none⟩
  else if !optTruthy entryId then
    .error ⟨.changerawrError,
      "Entry ID is required for deleting changelog entries", none, none⟩
  else
    .ok (projectId.getD "", entryId.getD "")

/-- A request dispatched by a mutation hook (the target ids; payloads are
opaque). -/
structure MutationRequest where
  projectId : String
  entryId : Option String
deriving DecidableEq, Repr

/-- One whole `createEntry(params)` invocation: the validation throw is
caught in the same synchronous run as the prologue, so a missing project id
yields a single batch with the local error stored, no request, and the
`null` sentinel returned; otherwise the prologue batch is followed by the
awaited call's settle batch.  The function catches every failure, so it
never throws to its caller. -/
def createEntryRun {α : Type} (projectId : Option String)
    (outcome : CallOutcome α) (s : MutState α) :
    MutState α × Option MutationRequest × Option α :=
  match validateProjectId projectId with
  | .error err =>
      ({ mutStart s with isLoading := false, error := some err }, none, none)
  | .ok pid =>
      match outcome with
      | .ok v => (mutSettleOk v (mutStart s), some ⟨pid, none⟩, some v)
      | .fail e => (mutSettleFail e (mutStart s), some ⟨pid, none⟩, none)

/-- One whole `deleteEntry()` invocation, returning the boolean sentinel. -/
def deleteEntryRun {α : Type} (projectId entryId : Option String)
    (outcome : CallOutcome Unit) (s : MutState α) :
    MutState α × Option MutationRequest × Bool :=
  match validateIds projectId entryId with
  | .error err =>
      ({ mutStart s with isLoading := false, error := some err }, none, false)
  | .ok ids =>
      match outcome with
      | .ok _ =>
          ({ mutStart s with isSuccess := true, isLoading := false },
            some ⟨ids.1, some ids.2⟩, true)
      | .fail e => (mutSettleFail e (mutStart s), some ⟨ids.1, some ids.2⟩, false)

/-- The hook states a mutation primitive can expose to a consumer: the
initial state, and the result of any transition batch from a reachable
state.  Transitions may interleave freely (awaited calls may settle in any
order relative to later invocations), so every constructor applies from an
arbitrary reachable state; this over-approximates the real traces. -/
inductive MutReach {α : Type} : MutState α → Prop where
  | init : MutReach mutInit
  | start {s : MutState α} : MutReach s → MutReach (mutStart s)
  | settleOk {s : MutState α} (v : α) : MutReach s → MutReach (mutSettleOk v s)
  | settleFail {s : MutState α} (e : RawError) :
      MutReach s → MutReach (mutSettleFail e s)
  | settleDone {s : MutState α} :
      MutReach s → MutReach { s with isSuccess := true, isLoading := false }
  | validationFail {s : MutState α} (err : ClassifiedError) :
      MutReach s →
      MutReach { mutStart s with isLoading := false, error := some err }
  | reset {s : MutState α} : MutReach s → MutReach mutReset

/-! ## Tag selection: the `useTagFilter` hook (src/hooks/tags/useTagFilter.ts) -/

/-- `toggleTag`: remove the id when present (removing every copy), else add
it — appending in multi-select mode, replacing the whole selection in
single-select mode. -/
def toggleTag (multiSelect : Bool) (tagId : String) (sel : List String) :
    List String :=
  if sel.contains tagId then sel.filter (fun id => id ≠ tagId)
  else if multiSelect then sel ++ [tagId]
  else [tagId]

example : toggleTag true "b" (toggleTag true "b" ["a"]) = ["a"] := by decide
example : toggleTag true "a" (toggleTag true "a" ["a", "b"]) = ["b", "a"] := by decide
example : toggleTag false "b" (toggleTag false "b" ["a"]) = [] := by decide

/-! # Theorems -/

/-- C1, counterexample: `parseApiError` is not idempotent.  Re-classifying
an already-classified auth error (kind `ChangerawrAuthError`, message
`"forbidden"`, status 403, details present) yields a different kind, a
dropped status and dropped details. -/
theorem parseApiError_not_idempotent :
    (parseApiError (.classified
        ⟨.changerawrAuthError, "forbidden", some 403, some "missing scope"⟩)).name ≠
      ErrorName.changerawrAuthError ∧
    (parseApiError (.classified
        ⟨.changerawrAuthError, "forbidden", some 403, some "missing scope"⟩)).status ≠
      some 403 ∧
    (parseApiError (.classified
        ⟨.changerawrAuthError, "forbidden", some 403, some "missing scope"⟩)).details ≠
      some "missing scope" := by decide

/-- C1 (amended): `parseApiError` has no short-circuit for inputs that are
already classified.  A `ChangerawrError` instance carries neither a `code`
nor a `response` field, so it falls to the generic fallback: the message is
preserved (and the original is retained as `cause`), but the result is the
base `ChangerawrError` kind with no `httpStatus` and no `details`. -/
theorem parseApiError_reclassify (e : ClassifiedError) :
    parseApiError (.classified e) =
      ⟨.changerawrError, e.message, none, none⟩ := rfl

/-- C5, counterexample: constructing a client from a config supplying both
`apiKey = "k"` and `auth = {type: 'bearer', token: "t"}` yields the default
`Authorization` header `Bearer t`, not `Bearer k` — the `auth` spread comes
later in the header object literal and overwrites the `apiKey` entry. -/
theorem clientAuth_apiKey_not_precedent :
    axiosHeaders ⟨"https://api.example.com", none, some "k", some ⟨"t"⟩, none⟩
        "Authorization" ≠ some "Bearer k" ∧
    axiosHeaders ⟨"https://api.example.com", none, some "k", some ⟨"t"⟩, none⟩
        "Authorization" = some "Bearer t" := by decide

/-- C5 (amended): when a bearer-auth configuration is present its token
determines the default `Authorization` header, overriding any supplied
`apiKey` (the later object spread wins); the `apiKey` is used only when no
`auth` configuration is present; and an unspecified timeout defaults to
30000 ms.  The JSON content-type headers are always set. -/
theorem clientConstructor_auth_precedence (cfg : ChangerawrClientConfig) :
    (∀ a, cfg.auth = some a →
      axiosHeaders cfg "Authorization" = some ("Bearer " ++ a.token)) ∧
    (∀ k, cfg.auth = none → cfg.apiKey = some k → k ≠ "" →
      axiosHeaders cfg "Authorization" = some ("Bearer " ++ k)) ∧
    (cfg.timeout = none → axiosTimeout cfg = 30000) ∧
    axiosHeaders cfg "Content-Type" = some "application/json" ∧
    axiosHeaders cfg "Accept" = some "application/json" := by
  refine ⟨?_, ?_, ?_, ?_, ?_⟩
  · intro a ha
    simp [axiosHeaders, ha, hupdate]
  · intro k hauth hkey hne
    simp [axiosHeaders, hauth, hkey, hne, hupdate]
  · intro ht
    simp [axiosTimeout, ht]
  · rcases hauth : cfg.auth with _ | a <;>
      rcases hkey : cfg.apiKey with _ | k <;>
        simp [axiosHeaders, hauth, hkey, hupdate] <;>
          by_cases hk : k = "" <;> simp [hk, hupdate]
  · rcases hauth : cfg.auth with _ | a <;>
      rcases hkey : cfg.apiKey with _ | k <;>
        simp [axiosHeaders, hauth, hkey, hupdate] <;>
          by_cases hk : k = "" <;> simp [hk, hupdate]

/-- C5, witness for the amended theorem at a concrete config. -/
theorem clientConstructor_auth_precedence_witness :
    axiosHeaders ⟨"https://api.example.com", none, some "k", some ⟨"t"⟩, none⟩
        "Authorization" = some ("Bearer " ++ "t") ∧
    axiosTimeout ⟨"https://api.example.com", none, some "k", some ⟨"t"⟩, none⟩ = 30000 :=
  ⟨(clientConstructor_auth_precedence _).1 ⟨"t"⟩ rfl,
    (clientConstructor_auth_precedence _).2.2.1 rfl⟩

/-- C9, counterexample: the claim's universal stale-data rule is violated
by the single-project read hook `useProject`.  With a project loaded
(`some "proj"`), a failed refetch clears the data to `none` alongside
storing the error — the prior data value does not remain unchanged. -/
theorem useProject_clears_data_on_failure :
    (fetchProjectSettle (.fail .nonObject)
        (⟨some "proj", false, none⟩ : ProjectState String)).project = none ∧
    (fetchProjectSettle (.fail .nonObject)
        (⟨some "proj", false, none⟩ : ProjectState String)).project ≠
      some "proj" ∧
    (fetchProjectSettle (.fail .nonObject)
        (⟨some "proj", false, none⟩ : ProjectState String)).error.isSome =
      true := by decide

/-- C9 (amended): when a fetch fails, the cursor-pagination hook's
accumulated entries and cursor are unchanged by a next-page failure, the
single-entry hook's entry is unchanged, and the offset-list hook's items
and pagination counters are unchanged; in each case the error field
receives the classified failure (classified as-is when the failure is
already a `ChangerawrError`).  The single-project hook `useProject` is the
exception: its catch stores the classified error and clears the prior
project to null. -/
theorem fetchFailure_preserves_data {α : Type} (e : RawError)
    (s : ChangelogState α) (t : EntryState α) (u : ProjectsState α)
    (v : ProjectState α) :
    ((fetchSettle false (.fail e) s).entries = s.entries ∧
      (fetchSettle false (.fail e) s).nextCursor = s.nextCursor ∧
      (fetchSettle false (.fail e) s).error = some (hookClassify e)) ∧
    ((fetchEntrySettle (.fail e) t).entry = t.entry ∧
      (fetchEntrySettle (.fail e) t).error = some (hookClassify e)) ∧
    ((fetchProjectsSettle (.fail e) u).projects = u.projects ∧
      (fetchProjectsSettle (.fail e) u).total = u.total ∧
      (fetchProjectsSettle (.fail e) u).totalPages = u.totalPages ∧
      (fetchProjectsSettle (.fail e) u).error = some (hookClassify e)) ∧
    ((fetchProjectSettle (.fail e) v).project = none ∧
      (fetchProjectSettle (.fail e) v).error = some (hookClassify e)) :=
  ⟨⟨rfl, rfl, rfl⟩, ⟨rfl, rfl⟩, ⟨rfl, rfl, rfl, rfl⟩, ⟨rfl, rfl⟩⟩

/-- Keys contributed by a string-valued widget parameter. -/
theorem mem_fst_strParam (q k : String) (v : Option String) :
    q ∈ (strParam k v).map Prod.fst ↔ q = k ∧ ∃ s, v = some s ∧ s ≠ "" := by
  rcases v with _ | s
  · simp [strParam]
  · by_cases hs : s = "" <;> simp [strParam, hs]

/-- Keys contributed by the boolean widget parameter. -/
theorem mem_fst_boolParam (q k : String) (v : Option Bool) :
    q ∈ (boolParam k v).map Prod.fst ↔ q = k ∧ v = some true := by
  rcases v with _ | b
  · simp [boolParam]
  · cases b <;> simp [boolParam]

/-- Keys contributed by the numeric widget parameter. -/
theorem mem_fst_natParam (q k : String) (v : Option Nat) :
    q ∈ (natParam k v).map Prod.fst ↔ q = k ∧ ∃ n, v = some n ∧ n ≠ 0 := by
  rcases v with _ | n
  · simp [natParam]
  · by_cases hn : n = 0 <;> simp [natParam, hn]

/-- C10: `getWidgetScript` is pure string assembly (the embedding is a
plain function; the source dispatches no transport call), and each query
parameter appears in the generated URL exactly when the corresponding
option is truthy in the JavaScript sense: absent fields, empty-string
fields, `isPopup = false` and `maxEntries = 0` all contribute no parameter
at all. -/
theorem getWidgetScript_param_presence (p : WidgetScriptParams) :
    ("theme" ∈ (widgetQuery p).map Prod.fst ↔ ∃ s, p.theme = some s ∧ s ≠ "") ∧
    ("position" ∈ (widgetQuery p).map Prod.fst ↔ ∃ s, p.position = some s ∧ s ≠ "") ∧
    ("maxHeight" ∈ (widgetQuery p).map Prod.fst ↔ ∃ s, p.maxHeight = some s ∧ s ≠ "") ∧
    ("popup" ∈ (widgetQuery p).map Prod.fst ↔ p.isPopup = some true) ∧
    ("trigger" ∈ (widgetQuery p).map Prod.fst ↔ ∃ s, p.trigger = some s ∧ s ≠ "") ∧
    ("maxEntries" ∈ (widgetQuery p).map Prod.fst ↔ ∃ n, p.maxEntries = some n ∧ n ≠ 0) := by
  refine ⟨?_, ?_, ?_, ?_, ?_, ?_⟩ <;>
    · simp only [widgetQuery, List.map_append, List.mem_append,
        mem_fst_strParam, mem_fst_boolParam, mem_fst_natParam]
      simp

/-- C8, counterexample: in single-select mode, toggling an unselected id
twice does not return the selection to its prior state — starting from the
selection `["a"]`, toggling `"b"` twice leaves the empty selection, and the
previously selected `"a"` is gone even up to set equality. -/
theorem toggleTag_not_involutive :
    toggleTag false "b" (toggleTag false "b" ["a"]) ≠ ["a"] ∧
    "a" ∉ toggleTag false "b" (toggleTag false "b" ["a"]) := by decide

/-- C8 (amended): in multi-select mode, toggling the same id twice returns
the selection to the same set of ids (the toggled id may move to the end of
the list, and duplicate copies of it collapse, but membership is restored
for every id).  In single-select mode the double toggle restores the prior
state only when the selection was empty or exactly the toggled id;
otherwise the prior selection is lost (replaced by the toggled id, then
cleared). -/
theorem toggleTag_toggle (tagId : String) (sel : List String) :
    (∀ x, x ∈ toggleTag true tagId (toggleTag true tagId sel) ↔ x ∈ sel) ∧
    (sel = [tagId] ∨ sel = [] →
      toggleTag false tagId (toggleTag false tagId sel) = sel) := by
  constructor
  · intro x
    by_cases hc : tagId ∈ sel
    · have h1 : toggleTag true tagId sel = sel.filter (fun id => id ≠ tagId) := by
        simp [toggleTag, hc]
      have h2 : tagId ∉ sel.filter (fun id => id ≠ tagId) := by
        simp [List.mem_filter]
      have h3 : toggleTag true tagId (sel.filter (fun id => id ≠ tagId)) =
          sel.filter (fun id => id ≠ tagId) ++ [tagId] := by
        simp [toggleTag, h2]
      rw [h1, h3]
      simp only [List.mem_append, List.mem_filter, List.mem_singleton,
        decide_eq_true_eq]
      constructor
      · rintro (⟨hx, _⟩ | hx)
        · exact hx
        · exact hx ▸ hc
      · intro hx
        by_cases hxt : x = tagId
        · exact Or.inr hxt
        · exact Or.inl ⟨hx, hxt⟩
    · have h1 : toggleTag true tagId sel = sel ++ [tagId] := by
        simp [toggleTag, hc]
      have h2 : tagId ∈ sel ++ [tagId] := by simp
      have h3 : toggleTag true tagId (sel ++ [tagId]) =
          (sel ++ [tagId]).filter (fun id => id ≠ tagId) := by
        simp [toggleTag, h2]
      have h4 : (sel ++ [tagId]).filter (fun id => id ≠ tagId) = sel := by
        rw [List.filter_append]
        have hself : sel.filter (fun id => id ≠ tagId) = sel := by
          apply List.filter_eq_self.mpr
          intro a ha
          simp only [decide_eq_true_eq]
          intro h
          exact hc (h ▸ ha)
        have hsingle : List.filter (fun id => decide (id ≠ tagId)) [tagId] = [] := by
          simp
        rw [hself, hsingle, List.append_nil]
      rw [h1, h3, h4]
  · rintro (h | h) <;> subst h <;> simp [toggleTag]

/-- C8, witness: the amended theorem applied to the selection `["a", "b"]`
with the id `"a"` (multi-select part) and to the selection `["a"]` with the
id `"a"` (single-select part). -/
theorem toggleTag_toggle_witness :
    (∀ x, x ∈ toggleTag true "a" (toggleTag true "a" ["a", "b"]) ↔ x ∈ ["a", "b"]) ∧
    toggleTag false "a" (toggleTag false "a" ["a"]) = ["a"] :=
  ⟨(toggleTag_toggle "a" ["a", "b"]).1,
    (toggleTag_toggle "a" ["a"]).2 (Or.inl rfl)⟩

/-- C2, counterexample: `fetchNextPage` has no in-flight guard.  From a
state whose `isLoadingMore` flag is raised (a next-page fetch is in
flight) but whose cursor is present, calling `fetchNextPage` still
dispatches a request. -/
theorem fetchNextPage_no_inflight_guard :
    (fetchNextPageRun (α := String) ⟨some "p1", none, none, "newest", 10⟩
        (.ok ⟨["e3"], none⟩)
        ⟨["e1", "e2"], some "c1", false, true, none⟩).2 =
      some ⟨some "c1", 10, none, none, "newest"⟩ ∧
    (fetchNextPageRun (α := String) ⟨some "p1", none, none, "newest", 10⟩
        (.ok ⟨["e3"], none⟩)
        ⟨["e1", "e2"], some "c1", true, false, none⟩).2.isSome = true := by
  decide

/-- C2 (amended): `fetchNextPage` is a complete no-op (no request, state
unchanged) when `nextCursor` is absent (or the empty string, which JS
treats as falsy); when the cursor is present a request is dispatched
exactly when the project id is also present — the loading flags are not
consulted, so a call while a fetch is in flight still dispatches. -/
theorem fetchNextPage_noop_iff {α : Type} (cfg : ChangelogConfig)
    (outcome : FetchOutcome α) (s : ChangelogState α) :
    (optTruthy s.nextCursor = false → fetchNextPageRun cfg outcome s = (s, none)) ∧
    (fetchNextPageRun cfg outcome s).2.isSome =
      (optTruthy s.nextCursor && optTruthy cfg.projectId) := by
  constructor
  · intro h
    simp [fetchNextPageRun, h]
  · by_cases hcur : optTruthy s.nextCursor
    · by_cases hpid : optTruthy cfg.projectId <;>
        simp [fetchNextPageRun, fetchEntriesRun, fetchRequest, hcur, hpid]
    · simp [fetchNextPageRun, hcur, Bool.eq_false_iff.mpr hcur]

/-- C2, witness of the amended theorem: a state without a cursor, where
`fetchNextPage` leaves the state alone and dispatches nothing. -/
theorem fetchNextPage_noop_iff_witness :
    fetchNextPageRun (α := String) ⟨some "p1", none, none, "newest", 10⟩
        (.ok ⟨["e3"], none⟩) ⟨["e1", "e2"], none, false, false, none⟩ =
      (⟨["e1", "e2"], none, false, false, none⟩, none) :=
  (fetchNextPage_noop_iff ⟨some "p1", none, none, "newest", 10⟩
    (.ok ⟨["e3"], none⟩) ⟨["e1", "e2"], none, false, false, none⟩).1 rfl

/-- C4: when the project id or a filter field (search, tags, sort) changes
and a truthy project id is in effect, the dependency effect clears the
accumulated entries, the cursor and the error in the same batch in which
it raises the loading flag — so the sequence is empty before any response
arrives — and dispatches an initial request carrying no cursor; when that
initial fetch succeeds its items replace the (empty) sequence rather than
merging with pre-reset items, so filters are never applied retroactively
to already-loaded items. -/
theorem depsChange_resets (cfg : ChangelogConfig) (s : ChangelogState String)
    (h : optTruthy cfg.projectId = true) :
    (onDepsChange cfg s).1.entries = [] ∧
    (onDepsChange cfg s).1.nextCursor = none ∧
    (onDepsChange cfg s).1.error = none ∧
    (onDepsChange cfg s).1.isLoading = true ∧
    (onDepsChange cfg s).2 =
      some ⟨none, cfg.limit, cfg.search,
        cfg.tags.map (String.intercalate ","), cfg.sort⟩ ∧
    ∀ page, (fetchSettle true (.ok page) (onDepsChange cfg s).1).entries =
      page.items := by
  refine ⟨?_, ?_, ?_, ?_, ?_, ?_⟩ <;>
    simp [onDepsChange, fetchStart, fetchRequest, fetchSettle, h]

/-- C4, witness: a filter change while two old-filter entries are loaded
and a next page is available. -/
theorem depsChange_resets_witness :
    (onDepsChange ⟨some "p1", some "fix", none, "oldest", 10⟩
        (⟨["e1", "e2"], some "c1", false, false, none⟩ : ChangelogState String)).1.entries =
      [] ∧
    (onDepsChange ⟨some "p1", some "fix", none, "oldest", 10⟩
        (⟨["e1", "e2"], some "c1", false, false, none⟩ : ChangelogState String)).2 =
      some ⟨none, 10, some "fix", none, "oldest"⟩ :=
  ⟨(depsChange_resets ⟨some "p1", some "fix", none, "oldest", 10⟩
      ⟨["e1", "e2"], some "c1", false, false, none⟩ rfl).1,
    (depsChange_resets ⟨some "p1", some "fix", none, "oldest", 10⟩
      ⟨["e1", "e2"], some "c1", false, false, none⟩ rfl).2.2.2.2.1⟩

/-- C6: a mutation trigger invoked while a required identifier is missing
(absent or empty, per JS truthiness) dispatches no request, immediately
stores a locally classified error with the loading flag down, and returns
its failure sentinel (`null` for `createEntry`, `false` for `deleteEntry`);
the embedded run functions are total, mirroring the catch-all that keeps
the source functions from throwing synchronously. -/
theorem mutation_missing_id_no_request (pid pid' eid : Option String)
    (s t : MutState String) (o₁ : CallOutcome String) (o₂ : CallOutcome Unit)
    (hpid : optTruthy pid = false)
    (hdel : optTruthy pid' = false ∨ optTruthy eid = false) :
    ((createEntryRun pid o₁ s).2.1 = none ∧
      (createEntryRun pid o₁ s).2.2 = none ∧
      (createEntryRun pid o₁ s).1.error.isSome = true ∧
      (createEntryRun pid o₁ s).1.isLoading = false ∧
      (createEntryRun pid o₁ s).1.isSuccess = false) ∧
    ((deleteEntryRun pid' eid o₂ t).2.1 = none ∧
      (deleteEntryRun pid' eid o₂ t).2.2 = false ∧
      (deleteEntryRun pid' eid o₂ t).1.error.isSome = true ∧
      (deleteEntryRun pid' eid o₂ t).1.isLoading = false ∧
      (deleteEntryRun pid' eid o₂ t).1.isSuccess = false) := by
  constructor
  · rcases pid with _ | p
    · simp [createEntryRun, validateProjectId, mutStart]
    · have hp : p = "" := by
        by_contra hne
        simp [optTruthy, hne] at hpid
      subst hp
      simp [createEntryRun, validateProjectId, mutStart]
  · rcases hdel with h | h
    · simp [deleteEntryRun, validateIds, h, mutStart]
    · by_cases hp : optTruthy pid' <;>
        simp [deleteEntryRun, validateIds, hp, h, mutStart]

/-- C6, witness: `createEntry` with no project id and `deleteEntry` with a
project id but an empty entry id. -/
theorem mutation_missing_id_no_request_witness :
    (createEntryRun none (.ok "entry") (mutInit (α := String))).2.1 = none ∧
    (deleteEntryRun (some "p1") (some "") (.ok ())
        (mutInit (α := String))).2.2 = false :=
  ⟨(mutation_missing_id_no_request none (some "p1") (some "") mutInit mutInit
      (.ok "entry") (.ok ()) rfl (Or.inr rfl)).1.1,
    (mutation_missing_id_no_request none (some "p1") (some "") mutInit mutInit
      (.ok "entry") (.ok ()) rfl (Or.inr rfl)).2.2.1⟩

/-- C7: in every state a create/update/delete mutation primitive can
expose, `isLoading` and `isSuccess` are never both true: every invocation
prologue lowers `isSuccess` in the same batch that raises `isLoading`
(including re-invocation after a previous success), and every settle batch
lowers `isLoading` before or while raising `isSuccess`. -/
theorem mutation_not_loading_and_success {α : Type} (s : MutState α)
    (h : MutReach s) : ¬(s.isLoading = true ∧ s.isSuccess = true) := by
  induction h with
  | init => simp [mutInit]
  | start _ _ => simp [mutStart]
  | settleOk v _ _ => simp [mutSettleOk]
  | settleFail e _ _ => simp [mutSettleFail]
  | settleDone _ _ => simp
  | validationFail err _ _ => simp [mutStart]
  | reset _ _ => simp [mutReset]

/-- C7, witness: the invariant at the state reached by a successful create
followed by a re-invocation prologue. -/
theorem mutation_not_loading_and_success_witness :
    ¬((mutStart (mutSettleOk "entry" (mutStart (mutInit (α := String))))).isLoading = true ∧
      (mutStart (mutSettleOk "entry" (mutStart (mutInit (α := String))))).isSuccess = true) :=
  mutation_not_loading_and_success _
    (MutReach.start (MutReach.settleOk "entry" (MutReach.start MutReach.init)))

/-- One successful guarded `fetchNextPage` call: with a truthy project id
and a truthy cursor, the new page's items are appended at the end, the
cursor is replaced by the page's cursor, the error is cleared and both
loading flags end lowered. -/
theorem fetchNextPage_ok_step {α : Type} (cfg : ChangelogConfig)
    (p : CursorPage α) (s : ChangelogState α)
    (hp : optTruthy cfg.projectId = true)
    (hc : optTruthy s.nextCursor = true) :
    (fetchNextPageRun cfg (.ok p) s).1 =
      ⟨s.entries ++ p.items, p.nextCursor, false, false, none⟩ := by
  simp [fetchNextPageRun, fetchEntriesRun, fetchRequest, fetchStart,
    fetchSettle, hp, hc]

/-- The length of a flattened list of lists of equal length. -/
theorem flatten_length_const {β : Type} (L : List (List β)) (N : Nat)
    (h : ∀ x ∈ L, x.length = N) : L.flatten.length = L.length * N := by
  induction L with
  | nil => simp
  | cons x xs ih =>
      have hx : x.length = N := h x (List.mem_cons_self x xs)
      have hxs : xs.flatten.length = xs.length * N :=
        ih (fun y hy => h y (List.mem_cons_of_mem x hy))
      simp [List.flatten, List.length_append, hx, hxs, Nat.succ_mul]
      omega

/-- The entries and cursor after a sequence of successful guarded
`fetchNextPage` calls, by induction over the pages. -/
theorem runNextPages_core {α : Type} (cfg : ChangelogConfig)
    (hp : optTruthy cfg.projectId = true) :
    ∀ (pages : List (CursorPage α)) (s : ChangelogState α),
      optTruthy s.nextCursor = true →
      (∀ p ∈ pages.dropLast, optTruthy p.nextCursor = true) →
      (runNextPages cfg s pages).entries =
          s.entries ++ (pages.map CursorPage.items).flatten ∧
      (runNextPages cfg s pages).nextCursor = lastCursorOf pages s.nextCursor := by
  intro pages
  induction pages with
  | nil =>
      intro s hc _
      simp [runNextPages, lastCursorOf]
  | cons p rest ih =>
      intro s hc hmid
      have hstep := fetchNextPage_ok_step cfg p s hp hc
      have hrun : runNextPages cfg s (p :: rest) =
          runNextPages cfg ⟨s.entries ++ p.items, p.nextCursor, false, false, none⟩
            rest := by
        simp [runNextPages, hstep]
      rw [hrun]
      cases rest with
      | nil =>
          simp [runNextPages, lastCursorOf]
      | cons q t =>
          have hpc : optTruthy p.nextCursor = true := by
            apply hmid p
            simp [List.dropLast]
          have hmid' : ∀ r ∈ (q :: t).dropLast, optTruthy r.nextCursor = true := by
            intro r hr
            apply hmid r
            simp [List.dropLast, hr]
          obtain ⟨h1, h2⟩ :=
            ih ⟨s.entries ++ p.items, p.nextCursor, false, false, none⟩ hpc hmid'
          constructor
          · rw [h1]
            simp [List.append_assoc]
          · rw [h2]
            simp only [lastCursorOf]
            rcases hl : (q :: t).getLast? with _ | r
            · exact absurd hl (by simp)
            · simp [hl]

/-- C3: a sequence of successful guarded `fetchNextPage` calls appends each
page's items at the end of the accumulated sequence in server-response
order, with no deduplication (the result is literally the concatenation of
the prior entries with every page's items), replaces the cursor with the
last page's cursor, and after k pages of N items each grows the sequence by
exactly k×N items. -/
theorem runNextPages_appends {α : Type} (cfg : ChangelogConfig) (N : Nat)
    (pages : List (CursorPage α)) (s : ChangelogState α)
    (hp : optTruthy cfg.projectId = true)
    (hc : optTruthy s.nextCursor = true)
    (hmid : ∀ p ∈ pages.dropLast, optTruthy p.nextCursor = true)
    (hN : ∀ p ∈ pages, p.items.length = N) :
    (runNextPages cfg s pages).entries =
        s.entries ++ (pages.map CursorPage.items).flatten ∧
    (runNextPages cfg s pages).nextCursor = lastCursorOf pages s.nextCursor ∧
    (runNextPages cfg s pages).entries.length =
        s.entries.length + pages.length * N := by
  obtain ⟨h1, h2⟩ := runNextPages_core cfg hp pages s hc hmid
  refine ⟨h1, h2, ?_⟩
  rw [h1, List.length_append]
  have hjoin : ((pages.map CursorPage.items).flatten).length =
      (pages.map CursorPage.items).length * N := by
    apply flatten_length_const
    intro x hx
    obtain ⟨q, hq, rfl⟩ := List.mem_map.mp hx
    exact hN q hq
  rw [hjoin, List.length_map]

/-- C3, witness: the spec's example scenario.  After the initial fetch the
state holds `[e1, e2]` with cursor `"c1"`; one successful `fetchNextPage`
consuming page2 = `{items: [e3], nextCursor: absent}` yields entries
`[e1, e2] ++ [e3] = [e1, e2, e3]`, the cursor becomes absent (so a
subsequent `fetchNextPage` dispatches nothing), and the length grew by
1×1. -/
theorem runNextPages_appends_witness :
    (runNextPages (α := String) ⟨some "p1", none, none, "newest", 10⟩
        ⟨["e1", "e2"], some "c1", false, false, none⟩
        [⟨["e3"], none⟩]).entries =
      ["e1", "e2"] ++ ([⟨["e3"], none⟩].map (CursorPage.items (α := String))).flatten ∧
    (runNextPages (α := String) ⟨some "p1", none, none, "newest", 10⟩
        ⟨["e1", "e2"], some "c1", false, false, none⟩
        [⟨["e3"], none⟩]).nextCursor =
      lastCursorOf [⟨["e3"], none⟩] (some "c1") ∧
    (runNextPages (α := String) ⟨some "p1", none, none, "newest", 10⟩
        ⟨["e1", "e2"], some "c1", false, false, none⟩
        [⟨["e3"], none⟩]).entries.length = 2 + 1 * 1 :=
  runNextPages_appends ⟨some "p1", none, none, "newest", 10⟩ 1 [⟨["e3"], none⟩]
    ⟨["e1", "e2"], some "c1", false, false, none⟩ rfl rfl
    (by intro p hpp; simp [List.dropLast] at hpp) (by intro p hpp; simp at hpp; simp [hpp])

end Changerawr
